import Mathlib

/-!
Shallow embedding of src/sensor.py (hass-aria2c): an aria2c JSON-RPC client
(class Aria2cHomeassistant) plus Home Assistant sensor facades
(class Aria2cSensor) and the platform setup routine (setup_platform).

Modelling conventions:
- Python values flowing through the module (parsed JSON, sensor state) are the
  inductive type PyVal; Python floats are modelled as exact rationals.
- Raised Python exceptions are modelled with Except PyExc; a function that can
  raise returns Except PyExc.
- Side effects (HTTP POSTs issued by requests.post, print and logger output,
  the process-wide _THROTTLED_REFRESH global) are threaded through an explicit
  World record; a stateful Python callable of result type A becomes a Lean
  function World -> Except PyExc A x World. Exceptions propagate together
  with the World reached so far, so effects performed before a raise persist.
- The network is a parameter net : Net mapping the posted payload to the
  parsed response JSON (the composition of requests.post and Response.json),
  or to a transport exception. requests.post signals a transport failure by
  raising requests.exceptions.ConnectionError, modelled as the constructor
  PyExc.requestsConnectionError.
-/

/-- Python exception classes that can arise in sensor.py. The two connection
error constructors are distinct because Python distinguishes the builtin
ConnectionError class from requests.exceptions.ConnectionError: the latter
derives from RequestException and IOError, not from the builtin class, so an
except clause naming the builtin does not catch it. -/
inductive PyExc where
  | typeError (msg : String)
  | valueError (msg : String)
  | keyError (k : String)
  | nameError (msg : String)
  | attributeError (msg : String)
  | builtinConnectionError (msg : String)
  | requestsConnectionError (msg : String)
deriving DecidableEq

/-- Python values reachable in this module: strings, ints, floats (as exact
rationals), None, and string-keyed dicts (parsed JSON objects). -/
inductive PyVal where
  | str (s : String)
  | int (n : Int)
  | rat (q : ℚ)
  | none
  | dict (fields : List (String × PyVal))

/-- Python dict subscription d[k]: the value at key k, or KeyError; TypeError
when the subscripted value is not a dict. -/
def PyVal.getItem : PyVal → String → Except PyExc PyVal
  | .dict fs, k =>
    match fs.lookup k with
    | some v => Except.ok v
    | Option.none => Except.error (PyExc.keyError k)
  | _, k => Except.error (PyExc.typeError ("value of key " ++ k ++ " is not subscriptable"))

/-- Python membership test (k in d) on a parsed JSON object. -/
def PyVal.containsKey : PyVal → String → Bool
  | .dict fs, k => (fs.lookup k).isSome
  | _, _ => false

/-- Coarse rendering of a value into text, used for the interpolated print
and logger messages. Exact for the strings and ints that actually reach
those messages. -/
def PyVal.format : PyVal → String
  | .str s => s
  | .int n => toString n
  | .rat q => toString q
  | .none => "None"
  | .dict _ => "dict"

/-- Decimal value of a digit character, or nothing for a non-digit. -/
def pyDigit? (c : Char) : Option ℕ :=
  if c.isDigit then some (c.toNat - Char.toNat (Char.ofNat 48)) else Option.none

/-- Value of a non-empty run of decimal digits, most significant first. -/
def pyDigitsAux : List Char → ℕ → Option ℕ
  | [], acc => some acc
  | c :: cs, acc =>
    match pyDigit? c with
    | some d => pyDigitsAux cs (acc * 10 + d)
    | Option.none => Option.none

/-- Integer-literal parsing as done by the Python int and float builtins on
the strings this module feeds them: an optional sign followed by decimal
digits (the aria2c daemon reports counts and speeds as such stringified
integers). -/
def pyStrToInt? (s : String) : Option Int :=
  match s.data with
  | [] => Option.none
  | '-' :: cs =>
    match cs with
    | [] => Option.none
    | _ => (pyDigitsAux cs 0).map (fun n => -(n : Int))
  | '+' :: cs =>
    match cs with
    | [] => Option.none
    | _ => (pyDigitsAux cs 0).map (fun n => (n : Int))
  | cs => (pyDigitsAux cs 0).map (fun n => (n : Int))

/-- Python int(x) on the values this module feeds it; int(None) raises
TypeError, which is what the default error handler result triggers in
Aria2cSensor.update. -/
def pyIntOf : PyVal → Except PyExc Int
  | .int n => Except.ok n
  | .rat q => Except.ok (Int.tdiv q.num q.den)
  | .str s =>
    match pyStrToInt? s with
    | some n => Except.ok n
    | Option.none => Except.error (PyExc.valueError ("invalid literal for int: " ++ s))
  | .none => Except.error (PyExc.typeError "int argument must be a string or a number, not NoneType")
  | .dict _ => Except.error (PyExc.typeError "int argument must be a string or a number, not dict")

/-- Python float(x) on the values this module feeds it, with floats as exact
rationals; float(None) raises TypeError. -/
def pyFloatOf : PyVal → Except PyExc ℚ
  | .int n => Except.ok (n : ℚ)
  | .rat q => Except.ok q
  | .str s =>
    match pyStrToInt? s with
    | some n => Except.ok (n : ℚ)
    | Option.none => Except.error (PyExc.valueError ("could not convert string to float: " ++ s))
  | .none => Except.error (PyExc.typeError "float argument must be a string or a number, not NoneType")
  | .dict _ => Except.error (PyExc.typeError "float argument must be a string or a number, not dict")

/-- Python truthiness for the optional payload arguments (if uris, if options). -/
def pyTruthy : PyVal → Bool
  | .str s => !s.isEmpty
  | .int n => n != 0
  | .rat q => q != 0
  | .none => false
  | .dict fs => !fs.isEmpty

/-- Round half to even, the rounding used by the Python builtin round. -/
def roundHalfEven (q : ℚ) : ℤ :=
  let n := ⌊q⌋
  let frac := q - n
  if frac < 1/2 then n
  else if 1/2 < frac then n + 1
  else if n % 2 = 0 then n else n + 1

/-- Python round(q, places) with floats modelled as exact rationals. -/
def pyRound (places : ℕ) (q : ℚ) : ℚ :=
  (roundHalfEven (q * 10 ^ places) : ℚ) / 10 ^ places

/-- Connection data of class Aria2cHomeassistant (host, port, optional
secret token); immutable after construction. -/
structure Aria2cHomeassistant where
  host : String
  port : Nat
  token : Option String

/-- Server url built in the constructor. -/
def Aria2cHomeassistant.serverUrl (c : Aria2cHomeassistant) : String :=
  "http://" ++ c.host ++ ":" ++ toString c.port ++ "/jsonrpc"

/-- Constant self.IDPREFIX from the constructor. -/
def IDPREF : String := "pyaria2c"

/-- Constant self.GET_VER from the constructor. -/
def GET_VER : String := "aria2.getVersion"

/-- Constant self.GET_STATUS from the constructor. -/
def GET_STATUS : String := "aria2.getGlobalStat"

/-- The JSON-RPC request body assembled by Aria2cHomeassistant._genPayload. -/
structure Payload where
  jsonrpc : String
  id : String
  method : String
  params : List PyVal

/-- Embedding of Aria2cHomeassistant._genPayload (sensor.py lines 141-153).
The id is IDPREFIX plus the optional suffix cid when cid is truthy. The
params list starts with the expression ("token:" + self.token); when the
token is None (the config omitted it) that string concatenation raises
TypeError, so payload construction fails. -/
def Aria2cHomeassistant.genPayload (c : Aria2cHomeassistant) (method : String)
    (uris options : Option PyVal) (cid : Option String) : Except PyExc Payload :=
  let cid2 : String :=
    match cid with
    | some s => if s.isEmpty then IDPREF else IDPREF ++ s
    | Option.none => IDPREF
  match c.token with
  | Option.none =>
    Except.error (PyExc.typeError "can only concatenate str (not NoneType) to str")
  | some t =>
    let ps := [PyVal.str ("token:" ++ t)]
    let ps := ps ++ (match uris with
      | some u => if pyTruthy u then [u] else []
      | Option.none => [])
    let ps := ps ++ (match options with
      | some o => if pyTruthy o then [o] else []
      | Option.none => [])
    Except.ok { jsonrpc := "2.0", id := cid2, method := method, params := ps }

/-- State of the process-wide throttled refresh callable.
Modelled from the spec: the Throttle wrapper created in setup_platform lives
in the external homeassistant library, not under src/. Per the spec, the
shared throttle state holds the last invocation timestamp, enforces a minimum
spacing (1 second here) between actual network calls, and returns the cached
prior result (or nothing, modelled by the initial cached value None) for
calls made sooner. It wraps the bound method aria2c_api.getVer of the client
created at setup. -/
structure ThrottleState where
  minIntervalSec : ℚ
  lastCall : Option ℚ
  cached : PyVal
  client : Aria2cHomeassistant

/-- Mutable process state threaded through the module: the global
_THROTTLED_REFRESH slot (sensor.py line 22, initially None), the list of
HTTP POST requests issued so far, and the text printed or logged so far. -/
structure World where
  throttle : Option ThrottleState
  posts : List Payload
  log : List String

/-- Fresh process state: _THROTTLED_REFRESH is None, nothing posted or logged. -/
def World.empty : World := { throttle := Option.none, posts := [], log := [] }

/-- Behaviour of the network: the parsed JSON of the HTTP response to a
posted payload, or a raised transport exception (requests.post raises
requests.exceptions.ConnectionError on connection failure). -/
def Net : Type := Payload → Except PyExc PyVal

/-- Embedding of requests.post followed by Response.json: records the request
in the world, then returns the parsed response or the transport exception. -/
def doPost (net : Net) (p : Payload) (w : World) : Except PyExc PyVal × World :=
  (net p, { w with posts := w.posts ++ [p] })

/-- Embedding of Aria2cHomeassistant._defaultErrorHandler (lines 155-158):
prints the ERROR line with the code and message and returns None. -/
def Aria2cHomeassistant.defaultErrorHandler (code message : PyVal) (w : World) :
    Except PyExc PyVal × World :=
  (Except.ok PyVal.none,
   { w with log := w.log ++ ["ERROR: " ++ code.format ++ ", " ++ message.format] })

/-- Embedding of Aria2cHomeassistant._post (lines 160-169). Every call site
in the file passes params = [], so _genPayload receives no uris, options or
cid; onFail defaults to _defaultErrorHandler when not supplied (no call site
supplies one). On a response containing an error field the failure handler is
applied to the code and message fields of the error object; otherwise the
success handler extracts the result. -/
def Aria2cHomeassistant.post (c : Aria2cHomeassistant) (net : Net) (action : String)
    (onSuc : PyVal → Except PyExc PyVal)
    (onFail : Option (PyVal → PyVal → World → Except PyExc PyVal × World))
    (w : World) : Except PyExc PyVal × World :=
  let fail := match onFail with
    | Option.none => Aria2cHomeassistant.defaultErrorHandler
    | some f => f
  match c.genPayload action Option.none Option.none Option.none with
  | Except.error e => (Except.error e, w)
  | Except.ok payload =>
    match doPost net payload w with
    | (Except.error e, w1) => (Except.error e, w1)
    | (Except.ok result, w1) =>
      if result.containsKey "error" then
        match result.getItem "error" with
        | Except.error e => (Except.error e, w1)
        | Except.ok eo =>
          match eo.getItem "code" with
          | Except.error e => (Except.error e, w1)
          | Except.ok cd =>
            match eo.getItem "message" with
            | Except.error e => (Except.error e, w1)
            | Except.ok ms => fail cd ms w1
      else
        match onSuc result with
        | Except.error e => (Except.error e, w1)
        | Except.ok v => (Except.ok v, w1)

/-- Embedding of Aria2cHomeassistant.getVer (lines 171-174). -/
def Aria2cHomeassistant.getVer (c : Aria2cHomeassistant) (net : Net) (w : World) :
    Except PyExc PyVal × World :=
  c.post net GET_VER
    (fun r =>
      match r.getItem "result" with
      | Except.error e => Except.error e
      | Except.ok r1 => r1.getItem "version")
    Option.none w

/-- Embedding of Aria2cHomeassistant.getDownloadSpeed (lines 175-178). -/
def Aria2cHomeassistant.getDownloadSpeed (c : Aria2cHomeassistant) (net : Net) (w : World) :
    Except PyExc PyVal × World :=
  c.post net GET_STATUS
    (fun r =>
      match r.getItem "result" with
      | Except.error e => Except.error e
      | Except.ok r1 => r1.getItem "downloadSpeed")
    Option.none w

/-- Embedding of Aria2cHomeassistant.getUpSpeed (lines 179-182). -/
def Aria2cHomeassistant.getUpSpeed (c : Aria2cHomeassistant) (net : Net) (w : World) :
    Except PyExc PyVal × World :=
  c.post net GET_STATUS
    (fun r =>
      match r.getItem "result" with
      | Except.error e => Except.error e
      | Except.ok r1 => r1.getItem "uploadSpeed")
    Option.none w

/-- Embedding of Aria2cHomeassistant.getActive (lines 183-186). -/
def Aria2cHomeassistant.getActive (c : Aria2cHomeassistant) (net : Net) (w : World) :
    Except PyExc PyVal × World :=
  c.post net GET_STATUS
    (fun r =>
      match r.getItem "result" with
      | Except.error e => Except.error e
      | Except.ok r1 => r1.getItem "numActive")
    Option.none w

/-- Embedding of Aria2cHomeassistant.getUnfinishedTasks (lines 187-190):
the success handler computes int(numActive) + int(numWaiting), re-reading the
result object for the second addend exactly as the source line does. -/
def Aria2cHomeassistant.getUnfinishedTasks (c : Aria2cHomeassistant) (net : Net) (w : World) :
    Except PyExc PyVal × World :=
  c.post net GET_STATUS
    (fun r0 =>
      match r0.getItem "result" with
      | Except.error e => Except.error e
      | Except.ok r1 =>
        match r1.getItem "numActive" with
        | Except.error e => Except.error e
        | Except.ok va =>
          match pyIntOf va with
          | Except.error e => Except.error e
          | Except.ok ai =>
            match r0.getItem "result" with
            | Except.error e => Except.error e
            | Except.ok r2 =>
              match r2.getItem "numWaiting" with
              | Except.error e => Except.error e
              | Except.ok vb =>
                match pyIntOf vb with
                | Except.error e => Except.error e
                | Except.ok bi => Except.ok (PyVal.int (ai + bi)))
    Option.none w

/-- Names bound in the module namespace of sensor.py when the SENSOR_TYPES
dict literal at lines 27-32 is evaluated: the imported names from lines 6-19
and the assignments at lines 21-25. No statement in the file binds the name
Tasks. -/
def moduleNames : List String :=
  ["logging", "timedelta", "vol", "requests", "json", "cv", "PLATFORM_SCHEMA",
   "CONF_HOST", "CONF_TOKEN", "CONF_NAME", "CONF_PORT", "CONF_MONITORED_VARIABLES",
   "STATE_IDLE", "Entity", "Throttle", "_LOGGER", "_THROTTLED_REFRESH",
   "DEFAULT_NAME", "DEFAULT_PORT"]

/-- Evaluation of the SENSOR_TYPES dict literal (sensor.py lines 27-32).
The entries for active and unfinished_tasks use the bare name Tasks as their
unit value; evaluating a bare name that is not bound in any enclosing scope
raises NameError, so the literal never evaluates to a dict. The then branch
is unreachable (Tasks is not in moduleNames); it records the labels and the
quoted unit strings of the literal for reference. -/
def SENSOR_TYPES_eval : Except PyExc (List (String × (PyVal × PyVal))) :=
  if moduleNames.contains "Tasks" then
    Except.ok
      [("active", (PyVal.str "Active", PyVal.str "Tasks")),
       ("download_speed", (PyVal.str "Down Speed", PyVal.str "MB/s")),
       ("upload_speed", (PyVal.str "Up Speed", PyVal.str "MB/s")),
       ("unfinished_tasks", (PyVal.str "Unfinished Tasks", PyVal.str "Tasks"))]
  else
    Except.error (PyExc.nameError "name Tasks is not defined")

/-- Fields of class Aria2cSensor: internalName is self._name, state is
self._state (initially Python None), the rest mirror the constructor at
lines 80-87. -/
structure Aria2cSensor where
  internalName : PyVal
  aria2c_client : Option Aria2cHomeassistant
  type : String
  client_name : String
  unit_of_measurement : PyVal
  state : PyVal

/-- Embedding of Aria2cSensor.__init__ (lines 80-87): looks the sensor type
up in SENSOR_TYPES for the label and unit. Since evaluating SENSOR_TYPES
raises NameError, no construction can succeed at runtime. -/
def Aria2cSensor.init (sensor_type : String) (client : Aria2cHomeassistant)
    (clientName : String) : Except PyExc Aria2cSensor :=
  match SENSOR_TYPES_eval with
  | Except.error e => Except.error e
  | Except.ok tbl =>
    match tbl.lookup sensor_type with
    | Option.none => Except.error (PyExc.keyError sensor_type)
    | some (label, unit) =>
      Except.ok
        { internalName := label, aria2c_client := some client, type := sensor_type,
          client_name := clientName, unit_of_measurement := unit, state := PyVal.none }

/-- Embedding of the name property (lines 89-92). -/
def Aria2cSensor.displayName (s : Aria2cSensor) : String :=
  s.client_name ++ " " ++ s.internalName.format

/-- Predicate for the except ConnectionError clauses at lines 58 and 110: in
Python an except clause naming the builtin ConnectionError catches instances
of that class and its subclasses; requests.exceptions.ConnectionError is not
among them (it derives from RequestException and IOError), so it is not
caught. -/
def catchesBuiltinConnError : PyExc → Bool
  | PyExc.builtinConnectionError _ => true
  | _ => false

/-- Attribute original of a caught exception object, read by the handler at
line 61. None of the exception classes raised in this program defines or sets
an attribute named original (it belonged to the transmission library error
class in the file this module was adapted from), so the lookup yields nothing
and the attribute access raises AttributeError. -/
def pyExcOriginalAttr : PyExc → Option PyVal := fun _ => Option.none

/-- The process-wide throttled refresh callable _THROTTLED_REFRESH().
Modelled from the spec: the Throttle wrapper itself lives in the external
homeassistant library. Per the spec data model, an invocation makes an actual
network call (delegating to getVer of the wrapped client) when no call was
made yet or the minimum interval has elapsed since the last one, recording
the invocation timestamp and memoizing the result; an invocation made sooner
performs no network call and returns the cached prior result (or nothing,
None, when no call succeeded yet). When the slot is None this function is
never reached (refresh_aria2c_data tests the slot first); that case returns
None without effect. -/
def throttledRefresh (now : ℚ) (net : Net) (w : World) : Except PyExc PyVal × World :=
  match w.throttle with
  | Option.none => (Except.ok PyVal.none, w)
  | some st =>
    let due : Bool :=
      match st.lastCall with
      | Option.none => true
      | some t0 => decide (st.minIntervalSec ≤ now - t0)
    if due then
      match st.client.getVer net w with
      | (Except.ok r, w1) =>
        (Except.ok r,
         { w1 with throttle := some { st with lastCall := some now, cached := r } })
      | (Except.error e, w1) => (Except.error e, w1)
    else
      (Except.ok st.cached, w)

/-- Embedding of Aria2cSensor.refresh_aria2c_data (lines 104-111): when the
global _THROTTLED_REFRESH slot is None nothing happens; otherwise the
throttled callable runs and a raised builtin ConnectionError is caught and
logged, while any other exception propagates. -/
def Aria2cSensor.refresh_aria2c_data (_s : Aria2cSensor) (now : ℚ) (net : Net)
    (w : World) : Except PyExc Unit × World :=
  match w.throttle with
  | Option.none => (Except.ok (), w)
  | some _ =>
    match throttledRefresh now net w with
    | (Except.ok _, w1) => (Except.ok (), w1)
    | (Except.error e, w1) =>
      if catchesBuiltinConnError e then
        (Except.ok (), { w1 with log := w1.log ++ ["Connection to Aria2c API failed"] })
      else
        (Except.error e, w1)

/-- Embedding of the body of Aria2cSensor.update after the refresh call
(lines 117-129): the metric branch selected by self.type issues its dedicated
RPC call and assigns self._state; an instance object is always truthy, so the
if self.aria2c_client guard only skips the branches when the reference is
None. The result triple is the raised-or-ok outcome, the facade after the
mutations performed so far, and the world reached. -/
def Aria2cSensor.fetchMetric (s : Aria2cSensor) (net : Net) (w : World) :
    Except PyExc Unit × Aria2cSensor × World :=
  match s.aria2c_client with
  | Option.none => (Except.ok (), s, w)
  | some c =>
    if s.type = "download_speed" then
      match c.getDownloadSpeed net w with
      | (Except.error e, w1) => (Except.error e, s, w1)
      | (Except.ok r, w1) =>
        match pyFloatOf r with
        | Except.error e => (Except.error e, s, w1)
        | Except.ok q =>
          let mb := q / 1024 / 1024
          (Except.ok (),
           { s with state := PyVal.rat (pyRound (if mb < 1/10 then 2 else 1) mb) }, w1)
    else if s.type = "upload_speed" then
      match c.getUpSpeed net w with
      | (Except.error e, w1) => (Except.error e, s, w1)
      | (Except.ok r, w1) =>
        match pyFloatOf r with
        | Except.error e => (Except.error e, s, w1)
        | Except.ok q =>
          let mb := q / 1024 / 1024
          (Except.ok (),
           { s with state := PyVal.rat (pyRound (if mb < 1/10 then 2 else 1) mb) }, w1)
    else if s.type = "active" then
      match c.getActive net w with
      | (Except.error e, w1) => (Except.error e, s, w1)
      | (Except.ok r, w1) =>
        match pyIntOf r with
        | Except.error e => (Except.error e, s, w1)
        | Except.ok n => (Except.ok (), { s with state := PyVal.int n }, w1)
    else if s.type = "unfinished_tasks" then
      match c.getUnfinishedTasks net w with
      | (Except.error e, w1) => (Except.error e, s, w1)
      | (Except.ok r, w1) =>
        match pyIntOf r with
        | Except.error e => (Except.error e, s, w1)
        | Except.ok n => (Except.ok (), { s with state := PyVal.int n }, w1)
    else (Except.ok (), s, w)

/-- Embedding of Aria2cSensor.update (lines 113-129): first the throttled
refresh step, then the metric fetch; an exception escaping the refresh step
aborts the update with the facade unchanged. -/
def Aria2cSensor.update (s : Aria2cSensor) (now : ℚ) (net : Net) (w : World) :
    Except PyExc Unit × Aria2cSensor × World :=
  match s.refresh_aria2c_data now net w with
  | (Except.error e, w1) => (Except.error e, s, w1)
  | (Except.ok _, w1) => s.fetchMetric net w1

/-- Configuration handed to setup_platform after schema validation: required
host, optional port (default 6800), optional token, optional name (default
Aria2c), monitored variable keys. -/
structure HAConfig where
  host : String
  port : Nat
  token : Option String
  name : String
  monitored_variables : List String

/-- Outcome of setup_platform when it does not raise: the explicit
return False, or completion with the device list passed to add_devices. -/
inductive SetupResult where
  | setupFailed
  | devicesAdded (devs : List Aria2cSensor)

/-- The device list construction of the setup loop (lines 70-72). -/
def mkSensors (vars : List String) (client : Aria2cHomeassistant)
    (clientName : String) : Except PyExc (List Aria2cSensor) :=
  vars.mapM (fun v => Aria2cSensor.init v client clientName)

/-- Embedding of setup_platform (lines 45-74): builds the client, probes it
with getVer, and on an exception applies the except ConnectionError clause:
only a builtin ConnectionError is caught, and the handler evaluates
error.original eagerly while building the log message, so a caught exception
without that attribute turns into AttributeError. On success the global
throttle slot is filled with a 1-second Throttle around getVer of this
client and the sensors are built and registered. -/
def setup_platform (config : HAConfig) (net : Net) (w : World) :
    Except PyExc SetupResult × World :=
  let client : Aria2cHomeassistant :=
    { host := config.host, port := config.port, token := config.token }
  match client.getVer net w with
  | (Except.error e, w1) =>
    if catchesBuiltinConnError e then
      match pyExcOriginalAttr e with
      | some orig =>
        (Except.ok SetupResult.setupFailed,
         { w1 with log := w1.log ++
            ["Connection to Aria2c API failed on " ++ config.host ++ ":" ++
             toString config.port ++ " with message " ++ orig.format] })
      | Option.none =>
        (Except.error (PyExc.attributeError "ConnectionError object has no attribute original"), w1)
    else (Except.error e, w1)
  | (Except.ok _, w1) =>
    let st : ThrottleState :=
      { minIntervalSec := 1, lastCall := Option.none, cached := PyVal.none,
        client := client }
    let w2 := { w1 with throttle := some st }
    match mkSensors config.monitored_variables client config.name with
    | Except.error e => (Except.error e, w2)
    | Except.ok devs => (Except.ok (SetupResult.devicesAdded devs), w2)

/-! Helper lemmas shared by the claim theorems. -/

/-- Payload produced by _genPayload when the token is present and no
positional arguments are given (every call site in the file). -/
lemma genPayload_token_some (c : Aria2cHomeassistant) (tok : String) (m : String)
    (htok : c.token = some tok) :
    c.genPayload m Option.none Option.none Option.none
      = Except.ok { jsonrpc := "2.0", id := IDPREF, method := m,
                    params := [PyVal.str ("token:" ++ tok)] } := by
  unfold Aria2cHomeassistant.genPayload
  rw [htok]
  rfl

/-- Evaluation of _post against a network that answers every request with a
fixed response carrying no error field: the call records one POST and hands
the response to the success handler. -/
lemma post_ok_eval (c : Aria2cHomeassistant) (net : Net) (action : String)
    (onSuc : PyVal → Except PyExc PyVal) (w : World) (tok : String) (resp : PyVal)
    (htok : c.token = some tok)
    (hnet : ∀ q, net q = Except.ok resp)
    (herr : resp.containsKey "error" = false) :
    c.post net action onSuc Option.none w
      = (onSuc resp,
         { w with posts := w.posts ++
             [{ jsonrpc := "2.0", id := IDPREF, method := action,
                params := [PyVal.str ("token:" ++ tok)] }] }) := by
  unfold Aria2cHomeassistant.post doPost
  rw [genPayload_token_some c tok action htok]
  simp only [hnet, herr, Bool.false_eq_true, if_false]
  cases onSuc resp <;> rfl

/-- Evaluation of _post against a network that answers every request with a
fixed response carrying an error field with code and message: the call
records one POST, invokes the default failure handler, logs the formatted
ERROR line and returns None. -/
lemma post_err_eval (c : Aria2cHomeassistant) (net : Net) (action : String)
    (onSuc : PyVal → Except PyExc PyVal) (w : World) (tok : String)
    (resp eo cd ms : PyVal)
    (htok : c.token = some tok)
    (hnet : ∀ q, net q = Except.ok resp)
    (herr : resp.containsKey "error" = true)
    (heo : resp.getItem "error" = Except.ok eo)
    (hcd : eo.getItem "code" = Except.ok cd)
    (hms : eo.getItem "message" = Except.ok ms) :
    c.post net action onSuc Option.none w
      = (Except.ok PyVal.none,
         { w with
             posts := w.posts ++
               [{ jsonrpc := "2.0", id := IDPREF, method := action,
                  params := [PyVal.str ("token:" ++ tok)] }],
             log := w.log ++ ["ERROR: " ++ cd.format ++ ", " ++ ms.format] }) := by
  unfold Aria2cHomeassistant.post doPost Aria2cHomeassistant.defaultErrorHandler
  rw [genPayload_token_some c tok action htok]
  simp only [hnet, herr, if_true, heo, hcd, hms]

/-- Every branch of the metric fetch either completes having assigned only
the state field, or raises with the facade unchanged. -/
lemma fetchMetric_shape (s : Aria2cSensor) (net : Net) (w : World) :
    ((s.fetchMetric net w).1 = Except.ok ()
      ∧ ∃ st, (s.fetchMetric net w).2.1 = { s with state := st })
    ∨ (s.fetchMetric net w).2.1 = s := by
  unfold Aria2cSensor.fetchMetric
  repeat' split
  all_goals first
    | (right; rfl)
    | (left; exact ⟨rfl, _, rfl⟩)

/-- The update result facade differs from the input facade at most in the
state field. -/
lemma update_sensor_shape (s : Aria2cSensor) (now : ℚ) (net : Net) (w : World) :
    ∃ st, (s.update now net w).2.1 = { s with state := st } := by
  unfold Aria2cSensor.update
  rcases hr : s.refresh_aria2c_data now net w with ⟨er, w1⟩
  rcases er with e | u
  · exact ⟨s.state, rfl⟩
  · rcases fetchMetric_shape s net w1 with ⟨_, st, hs⟩ | hs
    · exact ⟨st, hs⟩
    · exact ⟨s.state, by rw [hs]⟩

/-! Claim theorems. -/

/-- C8: the claim that the sensor-type table evaluates successfully with a
defined (label, unit) pair for every key fails on the code: the unit entries
for active and unfinished_tasks are the bare unbound name Tasks, so
evaluating the SENSOR_TYPES dict literal raises NameError (at module import).
This theorem evaluates the table at its failing point. -/
theorem aria2c_sensor_types_eval_raises :
    SENSOR_TYPES_eval = Except.error (PyExc.nameError "name Tasks is not defined") := by
  rfl

/-- C7: the claim that every configuration, a token-less one included,
yields a well-formed request body fails on the code: with the optional token
omitted (None), payload construction raises TypeError at the concatenation
("token:" + self.token), here evaluated at the getVersion call of a concrete
token-less client; no request is posted. With a token present the body does
have the documented shape, token: entry first. -/
theorem aria2c_genPayload_token_omitted_raises :
    Aria2cHomeassistant.genPayload
        { host := "localhost", port := 6800, token := Option.none }
        GET_VER Option.none Option.none Option.none
      = Except.error (PyExc.typeError "can only concatenate str (not NoneType) to str")
    ∧ (Aria2cHomeassistant.getVer
        { host := "localhost", port := 6800, token := Option.none }
        (fun _ => Except.ok (PyVal.dict [])) World.empty).1
      = Except.error (PyExc.typeError "can only concatenate str (not NoneType) to str")
    ∧ (Aria2cHomeassistant.getVer
        { host := "localhost", port := 6800, token := Option.none }
        (fun _ => Except.ok (PyVal.dict [])) World.empty).2.posts = []
    ∧ Aria2cHomeassistant.genPayload
        { host := "localhost", port := 6800, token := some "secret" }
        GET_VER Option.none Option.none Option.none
      = Except.ok { jsonrpc := "2.0", id := "pyaria2c", method := GET_VER,
                    params := [PyVal.str "token:secret"] } := by
  exact ⟨rfl, rfl, rfl, rfl⟩

/-- C6: the claim that setup catches a transport-level connection failure of
the initial liveness probe, logs it and returns a failure value fails on the
code: requests.post raises requests.exceptions.ConnectionError, the except
clause at line 58 names the builtin ConnectionError class which does not
match it, so the exception propagates out of setup_platform; nothing is
logged, no failure value is returned and no sensors are registered. -/
theorem aria2c_setup_connection_failure_propagates :
    (setup_platform
        { host := "localhost", port := 6800, token := some "secret",
          name := "Aria2c", monitored_variables := ["download_speed"] }
        (fun _ => Except.error (PyExc.requestsConnectionError "Connection refused"))
        World.empty).1
      = Except.error (PyExc.requestsConnectionError "Connection refused")
    ∧ (setup_platform
        { host := "localhost", port := 6800, token := some "secret",
          name := "Aria2c", monitored_variables := ["download_speed"] }
        (fun _ => Except.error (PyExc.requestsConnectionError "Connection refused"))
        World.empty).2.log = [] := by
  exact ⟨rfl, rfl⟩

/-- C4 counterexample: a poll cycle in which the metric-specific call fails
with an RPC-level error does not leave the update exception-free: the default
failure handler returns None and float(None) raises TypeError, so the claim
that the update never raises is false at this concrete input (the cached
state is nevertheless unchanged). -/
theorem aria2c_update_metric_rpc_error_raises :
    (Aria2cSensor.update
        { internalName := PyVal.str "Down Speed",
          aria2c_client := some { host := "localhost", port := 6800, token := some "secret" },
          type := "download_speed", client_name := "Aria2c",
          unit_of_measurement := PyVal.str "MB/s", state := PyVal.none }
        0
        (fun _ => Except.ok (PyVal.dict
          [("error", PyVal.dict [("code", PyVal.int 1), ("message", PyVal.str "Unauthorized")])]))
        World.empty).1
      = Except.error (PyExc.typeError "float argument must be a string or a number, not NoneType") := by
  rfl

/-- C4 amended: for every sensor facade and every poll cycle in which a call
fails in a way that aborts the update (any raised exception, including the
TypeError produced by the RPC-level error path of a metric call and a
propagating connection failure), the cached state after the update equals the
state before it; but the update does raise in those cycles, contrary to the
original claim. -/
theorem aria2c_update_failure_preserves_state (s : Aria2cSensor) (now : ℚ)
    (net : Net) (w : World) (e : PyExc)
    (h : (s.update now net w).1 = Except.error e) :
    (s.update now net w).2.1.state = s.state := by
  unfold Aria2cSensor.update at h ⊢
  rcases hr : s.refresh_aria2c_data now net w with ⟨er, w1⟩
  rw [hr] at h
  rcases er with e1 | u
  · rfl
  · have h2 : (s.fetchMetric net w1).1 = Except.error e := h
    rcases fetchMetric_shape s net w1 with ⟨hok, st2, hs2⟩ | hs2
    · rw [hok] at h2
      cases h2
    · show (s.fetchMetric net w1).2.1.state = s.state
      rw [hs2]

/-- Witness for the amended C4 theorem: a concrete failing poll cycle (the
metric call degrades to None through the default handler and int(None)
raises) leaves a previously read state value untouched. -/
theorem aria2c_update_failure_preserves_state_witness :
    (Aria2cSensor.update
        { internalName := PyVal.str "Active",
          aria2c_client := some { host := "localhost", port := 6800, token := some "secret" },
          type := "active", client_name := "Aria2c",
          unit_of_measurement := PyVal.str "Tasks", state := PyVal.int 5 }
        0
        (fun _ => Except.ok (PyVal.dict
          [("error", PyVal.dict [("code", PyVal.int 1), ("message", PyVal.str "Unauthorized")])]))
        World.empty).2.1.state
      = PyVal.int 5 := by
  exact aria2c_update_failure_preserves_state _ 0 _ World.empty
    (PyExc.typeError "int argument must be a string or a number, not NoneType") rfl

/-- C9: a facade whose sensor-type key is none of download_speed,
upload_speed, active, unfinished_tasks takes none of the metric branches, so
the update leaves the whole facade (its cached state included) unchanged; and
every update, whatever the type and outcome, leaves the name parts, type,
unit label and client reference of the facade unchanged. -/
theorem aria2c_update_frame (s : Aria2cSensor) (now : ℚ) (net : Net) (w : World) :
    ((s.type ≠ "download_speed" ∧ s.type ≠ "upload_speed" ∧ s.type ≠ "active" ∧
        s.type ≠ "unfinished_tasks") →
      (s.update now net w).2.1 = s)
    ∧ (s.update now net w).2.1.internalName = s.internalName
    ∧ (s.update now net w).2.1.type = s.type
    ∧ (s.update now net w).2.1.client_name = s.client_name
    ∧ (s.update now net w).2.1.unit_of_measurement = s.unit_of_measurement
    ∧ (s.update now net w).2.1.aria2c_client = s.aria2c_client := by
  have hframe := update_sensor_shape s now net w
  refine ⟨?_, ?_, ?_, ?_, ?_, ?_⟩
  · intro ⟨h1, h2, h3, h4⟩
    unfold Aria2cSensor.update
    rcases hr : s.refresh_aria2c_data now net w with ⟨er, w1⟩
    rcases er with e | u
    · rfl
    · show (s.fetchMetric net w1).2.1 = s
      unfold Aria2cSensor.fetchMetric
      rcases hc : s.aria2c_client with _ | c
      · rfl
      · simp only [h1, h2, h3, h4, if_false]
  · rcases hframe with ⟨st, hs⟩; rw [hs]
  · rcases hframe with ⟨st, hs⟩; rw [hs]
  · rcases hframe with ⟨st, hs⟩; rw [hs]
  · rcases hframe with ⟨st, hs⟩; rw [hs]
  · rcases hframe with ⟨st, hs⟩; rw [hs]

/-- Witness for C9: an update of a facade with the unknown sensor-type key
misc leaves the facade unchanged. -/
theorem aria2c_update_frame_witness :
    (Aria2cSensor.update
        { internalName := PyVal.str "Misc",
          aria2c_client := some { host := "localhost", port := 6800, token := some "secret" },
          type := "misc", client_name := "Aria2c",
          unit_of_measurement := PyVal.str "MB/s", state := PyVal.int 9 }
        0 (fun _ => Except.ok (PyVal.dict [])) World.empty).2.1
      = { internalName := PyVal.str "Misc",
          aria2c_client := some { host := "localhost", port := 6800, token := some "secret" },
          type := "misc", client_name := "Aria2c",
          unit_of_measurement := PyVal.str "MB/s", state := PyVal.int 9 } := by
  exact (aria2c_update_frame _ 0 _ World.empty).1
    ⟨by decide, by decide, by decide, by decide⟩

/-- C10: when the process-wide _THROTTLED_REFRESH slot is still None, the
refresh step of an update is a no-op: it raises nothing, posts nothing and
changes nothing, and the update reduces to the metric fetch alone. -/
theorem aria2c_refresh_uninitialized_noop (s : Aria2cSensor) (now : ℚ)
    (net : Net) (w : World) (h : w.throttle = Option.none) :
    s.refresh_aria2c_data now net w = (Except.ok (), w)
    ∧ s.update now net w = s.fetchMetric net w := by
  have h1 : s.refresh_aria2c_data now net w = (Except.ok (), w) := by
    unfold Aria2cSensor.refresh_aria2c_data
    rw [h]
  refine ⟨h1, ?_⟩
  unfold Aria2cSensor.update
  rw [h1]

/-- Witness for C10: with the fresh process state (slot None) the refresh
step of a concrete facade changes nothing and the update equals the plain
metric fetch. -/
theorem aria2c_refresh_uninitialized_noop_witness :
    Aria2cSensor.refresh_aria2c_data
        { internalName := PyVal.str "Down Speed",
          aria2c_client := some { host := "localhost", port := 6800, token := some "secret" },
          type := "download_speed", client_name := "Aria2c",
          unit_of_measurement := PyVal.str "MB/s", state := PyVal.none }
        0 (fun _ => Except.ok (PyVal.dict [])) World.empty
      = (Except.ok (), World.empty)
    ∧ Aria2cSensor.update
        { internalName := PyVal.str "Down Speed",
          aria2c_client := some { host := "localhost", port := 6800, token := some "secret" },
          type := "download_speed", client_name := "Aria2c",
          unit_of_measurement := PyVal.str "MB/s", state := PyVal.none }
        0 (fun _ => Except.ok (PyVal.dict [])) World.empty
      = Aria2cSensor.fetchMetric
        { internalName := PyVal.str "Down Speed",
          aria2c_client := some { host := "localhost", port := 6800, token := some "secret" },
          type := "download_speed", client_name := "Aria2c",
          unit_of_measurement := PyVal.str "MB/s", state := PyVal.none }
        (fun _ => Except.ok (PyVal.dict [])) World.empty := by
  exact aria2c_refresh_uninitialized_noop _ 0 _ World.empty rfl

/-- C3: for every RPC call whose parsed response JSON contains an error
field (with its code and message), the call raises nothing: the default
failure handler receives the code and message, the ERROR line with both is
printed, and the call returns None. -/
theorem aria2c_post_error_field_returns_none
    (c : Aria2cHomeassistant) (net : Net) (action : String)
    (onSuc : PyVal → Except PyExc PyVal) (w : World) (tok : String)
    (resp eo cd ms : PyVal)
    (htok : c.token = some tok)
    (hnet : ∀ q, net q = Except.ok resp)
    (herr : resp.containsKey "error" = true)
    (heo : resp.getItem "error" = Except.ok eo)
    (hcd : eo.getItem "code" = Except.ok cd)
    (hms : eo.getItem "message" = Except.ok ms) :
    (c.post net action onSuc Option.none w).1 = Except.ok PyVal.none
    ∧ (c.post net action onSuc Option.none w).2.log
        = w.log ++ ["ERROR: " ++ cd.format ++ ", " ++ ms.format] := by
  rw [post_err_eval c net action onSuc w tok resp eo cd ms htok hnet herr heo hcd hms]
  exact ⟨rfl, rfl⟩

/-- Witness for C3: a concrete unauthorized-style error response makes the
call return None and log the ERROR line, raising nothing. -/
theorem aria2c_post_error_field_returns_none_witness :
    (Aria2cHomeassistant.post
        { host := "localhost", port := 6800, token := some "secret" }
        (fun _ => Except.ok (PyVal.dict
          [("error", PyVal.dict [("code", PyVal.int 1), ("message", PyVal.str "Unauthorized")])]))
        GET_VER (fun r => Except.ok r) Option.none World.empty).1
      = Except.ok PyVal.none
    ∧ (Aria2cHomeassistant.post
        { host := "localhost", port := 6800, token := some "secret" }
        (fun _ => Except.ok (PyVal.dict
          [("error", PyVal.dict [("code", PyVal.int 1), ("message", PyVal.str "Unauthorized")])]))
        GET_VER (fun r => Except.ok r) Option.none World.empty).2.log
      = ["ERROR: 1, Unauthorized"] := by
  have h := aria2c_post_error_field_returns_none
    { host := "localhost", port := 6800, token := some "secret" }
    (fun _ => Except.ok (PyVal.dict
      [("error", PyVal.dict [("code", PyVal.int 1), ("message", PyVal.str "Unauthorized")])]))
    GET_VER (fun r => Except.ok r) World.empty "secret"
    (PyVal.dict
      [("error", PyVal.dict [("code", PyVal.int 1), ("message", PyVal.str "Unauthorized")])])
    (PyVal.dict [("code", PyVal.int 1), ("message", PyVal.str "Unauthorized")])
    (PyVal.int 1) (PyVal.str "Unauthorized")
    rfl (fun _ => rfl) rfl rfl rfl rfl
  exact ⟨h.1, h.2.trans rfl⟩

/-- C2: the unfinished-tasks operation returns the integer sum
numActive + numWaiting for every pair of non-negative integer inputs, given
as strings or ints, in the global-stat response. -/
theorem aria2c_unfinished_tasks_sum
    (c : Aria2cHomeassistant) (net : Net) (w : World) (tok : String)
    (resp r va vb : PyVal) (a b : Int)
    (htok : c.token = some tok)
    (hnet : ∀ q, net q = Except.ok resp)
    (herr : resp.containsKey "error" = false)
    (hres : resp.getItem "result" = Except.ok r)
    (hva : r.getItem "numActive" = Except.ok va)
    (hvb : r.getItem "numWaiting" = Except.ok vb)
    (ha : pyIntOf va = Except.ok a)
    (hb : pyIntOf vb = Except.ok b)
    (_ha0 : 0 ≤ a) (_hb0 : 0 ≤ b) :
    (c.getUnfinishedTasks net w).1 = Except.ok (PyVal.int (a + b)) := by
  unfold Aria2cHomeassistant.getUnfinishedTasks
  rw [post_ok_eval c net GET_STATUS _ w tok resp htok hnet herr]
  simp only [hres, hva, ha, hvb, hb]

/-- Witness for C2: numActive given as the string 3 and numWaiting as the
int 4 yield 7. -/
theorem aria2c_unfinished_tasks_sum_witness :
    (Aria2cHomeassistant.getUnfinishedTasks
        { host := "localhost", port := 6800, token := some "secret" }
        (fun _ => Except.ok (PyVal.dict
          [("result", PyVal.dict
            [("numActive", PyVal.str "3"), ("numWaiting", PyVal.int 4)])]))
        World.empty).1
      = Except.ok (PyVal.int 7) := by
  have h := aria2c_unfinished_tasks_sum
    { host := "localhost", port := 6800, token := some "secret" }
    (fun _ => Except.ok (PyVal.dict
      [("result", PyVal.dict
        [("numActive", PyVal.str "3"), ("numWaiting", PyVal.int 4)])]))
    World.empty "secret"
    (PyVal.dict
      [("result", PyVal.dict
        [("numActive", PyVal.str "3"), ("numWaiting", PyVal.int 4)])])
    (PyVal.dict [("numActive", PyVal.str "3"), ("numWaiting", PyVal.int 4)])
    (PyVal.str "3") (PyVal.int 4) 3 4
    rfl (fun _ => rfl) rfl rfl rfl rfl rfl rfl (by norm_num) (by norm_num)
  exact h.trans rfl

/-- C1: for every non-negative raw speed value v returned by the daemon for
a speed sensor (download_speed or upload_speed), the update operation
succeeds and sets the state to round(v / 1048576, 2) when v / 1048576 is
below 0.1 and to round(v / 1048576, 1) otherwise; the right side is the
formula exactly as the spec states it, while the code computes
round(v / 1024 / 1024, 2 if mb < 0.1 else 1). -/
theorem aria2c_update_speed_rounding
    (s : Aria2cSensor) (c : Aria2cHomeassistant) (now : ℚ) (net : Net) (w : World)
    (tok : String) (resp r dv : PyVal) (v : ℚ)
    (hcl : s.aria2c_client = some c)
    (htyp : s.type = "download_speed" ∨ s.type = "upload_speed")
    (htok : c.token = some tok)
    (hrefok : (s.refresh_aria2c_data now net w).1 = Except.ok ())
    (hnet : ∀ q, net q = Except.ok resp)
    (herr : resp.containsKey "error" = false)
    (hres : resp.getItem "result" = Except.ok r)
    (hdl : r.getItem "downloadSpeed" = Except.ok dv)
    (hul : r.getItem "uploadSpeed" = Except.ok dv)
    (hv : pyFloatOf dv = Except.ok v)
    (_hv0 : 0 ≤ v) :
    (s.update now net w).1 = Except.ok ()
    ∧ (s.update now net w).2.1.state
      = PyVal.rat (if v / 1048576 < 1/10 then pyRound 2 (v / 1048576)
                   else pyRound 1 (v / 1048576)) := by
  have hq : v / 1024 / 1024 = v / 1048576 := by
    rw [div_div]
    norm_num
  unfold Aria2cSensor.update
  rcases hr : s.refresh_aria2c_data now net w with ⟨er, w1⟩
  rw [hr] at hrefok
  have her : er = Except.ok () := hrefok
  subst her
  have hfm : (s.fetchMetric net w1).1 = Except.ok ()
      ∧ (s.fetchMetric net w1).2.1.state
        = PyVal.rat (if v / 1048576 < 1/10 then pyRound 2 (v / 1048576)
                     else pyRound 1 (v / 1048576)) := by
    unfold Aria2cSensor.fetchMetric
    rcases htyp with ht | ht
    · simp only [hcl, ht, if_pos]
      unfold Aria2cHomeassistant.getDownloadSpeed
      rw [post_ok_eval c net GET_STATUS _ w1 tok resp htok hnet herr]
      simp only [hres, hdl, hv, hq]
      refine ⟨by trivial, ?_⟩
      show PyVal.rat (pyRound (if v / 1048576 < 1/10 then 2 else 1) (v / 1048576)) = _
      by_cases hlt : v / 1048576 < 1/10
      · rw [if_pos hlt, if_pos hlt]
      · rw [if_neg hlt, if_neg hlt]
    · simp only [hcl, ht, String.reduceEq, if_false, if_pos]
      unfold Aria2cHomeassistant.getUpSpeed
      rw [post_ok_eval c net GET_STATUS _ w1 tok resp htok hnet herr]
      simp only [hres, hul, hv, hq]
      refine ⟨by trivial, ?_⟩
      show PyVal.rat (pyRound (if v / 1048576 < 1/10 then 2 else 1) (v / 1048576)) = _
      by_cases hlt : v / 1048576 < 1/10
      · rw [if_pos hlt, if_pos hlt]
      · rw [if_neg hlt, if_neg hlt]
  exact hfm

/-- Witness for C1: a download-speed facade reading the raw value 52428
stores 0.05 (two decimal places, since 52428 / 1048576 is below 0.1), and an
upload-speed facade reading 2097152 stores 2.0 (one decimal place). -/
theorem aria2c_update_speed_rounding_witness :
    (Aria2cSensor.update
        { internalName := PyVal.str "Down Speed",
          aria2c_client := some { host := "localhost", port := 6800, token := some "secret" },
          type := "download_speed", client_name := "Aria2c",
          unit_of_measurement := PyVal.str "MB/s", state := PyVal.none }
        0
        (fun _ => Except.ok (PyVal.dict
          [("result", PyVal.dict
            [("downloadSpeed", PyVal.str "52428"), ("uploadSpeed", PyVal.str "52428")])]))
        World.empty).2.1.state
      = PyVal.rat (1/20)
    ∧ (Aria2cSensor.update
        { internalName := PyVal.str "Up Speed",
          aria2c_client := some { host := "localhost", port := 6800, token := some "secret" },
          type := "upload_speed", client_name := "Aria2c",
          unit_of_measurement := PyVal.str "MB/s", state := PyVal.none }
        0
        (fun _ => Except.ok (PyVal.dict
          [("result", PyVal.dict
            [("downloadSpeed", PyVal.str "2097152"), ("uploadSpeed", PyVal.str "2097152")])]))
        World.empty).2.1.state
      = PyVal.rat 2 := by
  constructor
  · have h := aria2c_update_speed_rounding
      { internalName := PyVal.str "Down Speed",
        aria2c_client := some { host := "localhost", port := 6800, token := some "secret" },
        type := "download_speed", client_name := "Aria2c",
        unit_of_measurement := PyVal.str "MB/s", state := PyVal.none }
      { host := "localhost", port := 6800, token := some "secret" }
      0
      (fun _ => Except.ok (PyVal.dict
        [("result", PyVal.dict
          [("downloadSpeed", PyVal.str "52428"), ("uploadSpeed", PyVal.str "52428")])]))
      World.empty "secret"
      (PyVal.dict
        [("result", PyVal.dict
          [("downloadSpeed", PyVal.str "52428"), ("uploadSpeed", PyVal.str "52428")])])
      (PyVal.dict [("downloadSpeed", PyVal.str "52428"), ("uploadSpeed", PyVal.str "52428")])
      (PyVal.str "52428") 52428
      rfl (Or.inl rfl) rfl rfl (fun _ => rfl) rfl rfl rfl rfl rfl (by norm_num)
    exact h.2.trans (by norm_num [pyRound, roundHalfEven])
  · have h := aria2c_update_speed_rounding
      { internalName := PyVal.str "Up Speed",
        aria2c_client := some { host := "localhost", port := 6800, token := some "secret" },
        type := "upload_speed", client_name := "Aria2c",
        unit_of_measurement := PyVal.str "MB/s", state := PyVal.none }
      { host := "localhost", port := 6800, token := some "secret" }
      0
      (fun _ => Except.ok (PyVal.dict
        [("result", PyVal.dict
          [("downloadSpeed", PyVal.str "2097152"), ("uploadSpeed", PyVal.str "2097152")])]))
      World.empty "secret"
      (PyVal.dict
        [("result", PyVal.dict
          [("downloadSpeed", PyVal.str "2097152"), ("uploadSpeed", PyVal.str "2097152")])])
      (PyVal.dict [("downloadSpeed", PyVal.str "2097152"), ("uploadSpeed", PyVal.str "2097152")])
      (PyVal.str "2097152") 2097152
      rfl (Or.inr rfl) rfl rfl (fun _ => rfl) rfl rfl rfl rfl rfl (by norm_num)
    exact h.2.trans (by norm_num [pyRound, roundHalfEven])

/-- C5: starting from a freshly initialized shared throttle (1-second
minimum interval, no prior call), two throttled refresh invocations through
the shared state make exactly one network call when the second comes less
than 1 second after the first (and the second invocation receives the
memoized prior result), and exactly two network calls when the second comes
1 or more seconds after the first. The throttle state is the single shared
slot, so this holds however many facades issue the two invocations. -/
theorem aria2c_throttled_refresh_call_counts
    (c : Aria2cHomeassistant) (net : Net) (w : World) (tok : String)
    (resp r vv : PyVal) (t1 t2 : ℚ)
    (hth : w.throttle = some { minIntervalSec := 1, lastCall := Option.none,
                               cached := PyVal.none, client := c })
    (htok : c.token = some tok)
    (hnet : ∀ q, net q = Except.ok resp)
    (herr : resp.containsKey "error" = false)
    (hres : resp.getItem "result" = Except.ok r)
    (hver : r.getItem "version" = Except.ok vv)
    (_hle : t1 ≤ t2) :
    (throttledRefresh t2 net (throttledRefresh t1 net w).2).2.posts.length
      = w.posts.length + (if t2 - t1 < 1 then 1 else 2)
    ∧ (t2 - t1 < 1 →
        (throttledRefresh t2 net (throttledRefresh t1 net w).2).1
          = (throttledRefresh t1 net w).1) := by
  have hget : ∀ w0 : World, c.getVer net w0
      = (Except.ok vv,
         { w0 with posts := w0.posts ++
             [{ jsonrpc := "2.0", id := IDPREF, method := GET_VER,
                params := [PyVal.str ("token:" ++ tok)] }] }) := by
    intro w0
    unfold Aria2cHomeassistant.getVer
    rw [post_ok_eval c net GET_VER _ w0 tok resp htok hnet herr]
    simp only [hres, hver]
  by_cases hlt : t2 - t1 < 1
  · have hdue : decide ((1:ℚ) ≤ t2 - t1) = false := decide_eq_false (not_le.mpr hlt)
    constructor
    · simp only [throttledRefresh, hth, hget, hdue, Bool.false_eq_true, if_false, if_true,
        if_pos hlt, List.length_append, List.length_cons, List.length_nil]
    · intro _
      simp only [throttledRefresh, hth, hget, hdue, Bool.false_eq_true, if_false, if_true]
  · have hdue : decide ((1:ℚ) ≤ t2 - t1) = true := decide_eq_true (not_lt.mp hlt)
    constructor
    · simp only [throttledRefresh, hth, hget, hdue, if_true, if_neg hlt,
        List.append_assoc, List.length_append, List.length_cons, List.length_nil,
        Nat.add_assoc]
    · intro hcon
      exact absurd hcon hlt

/-- Witness for C5: against a daemon answering the version probe, two
throttled refreshes at times 0 and 0.5 seconds make exactly one network call
with the second invocation receiving the memoized result, while refreshes at
times 0 and 5 seconds make exactly two. -/
theorem aria2c_throttled_refresh_call_counts_witness :
    (throttledRefresh (1/2) (fun _ => Except.ok (PyVal.dict [("result", PyVal.dict [("version", PyVal.str "1.36.0")])])) (throttledRefresh 0 (fun _ => Except.ok (PyVal.dict [("result", PyVal.dict [("version", PyVal.str "1.36.0")])])) { throttle := some { minIntervalSec := 1, lastCall := Option.none, cached := PyVal.none, client := { host := "localhost", port := 6800, token := some "secret" } }, posts := [], log := [] }).2).2.posts.length = 1
    ∧ (throttledRefresh (1/2) (fun _ => Except.ok (PyVal.dict [("result", PyVal.dict [("version", PyVal.str "1.36.0")])])) (throttledRefresh 0 (fun _ => Except.ok (PyVal.dict [("result", PyVal.dict [("version", PyVal.str "1.36.0")])])) { throttle := some { minIntervalSec := 1, lastCall := Option.none, cached := PyVal.none, client := { host := "localhost", port := 6800, token := some "secret" } }, posts := [], log := [] }).2).1 = (throttledRefresh 0 (fun _ => Except.ok (PyVal.dict [("result", PyVal.dict [("version", PyVal.str "1.36.0")])])) { throttle := some { minIntervalSec := 1, lastCall := Option.none, cached := PyVal.none, client := { host := "localhost", port := 6800, token := some "secret" } }, posts := [], log := [] }).1
    ∧ (throttledRefresh 5 (fun _ => Except.ok (PyVal.dict [("result", PyVal.dict [("version", PyVal.str "1.36.0")])])) (throttledRefresh 0 (fun _ => Except.ok (PyVal.dict [("result", PyVal.dict [("version", PyVal.str "1.36.0")])])) { throttle := some { minIntervalSec := 1, lastCall := Option.none, cached := PyVal.none, client := { host := "localhost", port := 6800, token := some "secret" } }, posts := [], log := [] }).2).2.posts.length = 2 := by
  have hA := aria2c_throttled_refresh_call_counts { host := "localhost", port := 6800, token := some "secret" } (fun _ => Except.ok (PyVal.dict [("result", PyVal.dict [("version", PyVal.str "1.36.0")])])) { throttle := some { minIntervalSec := 1, lastCall := Option.none, cached := PyVal.none, client := { host := "localhost", port := 6800, token := some "secret" } }, posts := [], log := [] } "secret" (PyVal.dict [("result", PyVal.dict [("version", PyVal.str "1.36.0")])]) (PyVal.dict [("version", PyVal.str "1.36.0")]) (PyVal.str "1.36.0") 0 (1/2) rfl rfl (fun _ => rfl) rfl rfl rfl (by norm_num)
  have hB := aria2c_throttled_refresh_call_counts { host := "localhost", port := 6800, token := some "secret" } (fun _ => Except.ok (PyVal.dict [("result", PyVal.dict [("version", PyVal.str "1.36.0")])])) { throttle := some { minIntervalSec := 1, lastCall := Option.none, cached := PyVal.none, client := { host := "localhost", port := 6800, token := some "secret" } }, posts := [], log := [] } "secret" (PyVal.dict [("result", PyVal.dict [("version", PyVal.str "1.36.0")])]) (PyVal.dict [("version", PyVal.str "1.36.0")]) (PyVal.str "1.36.0") 0 5 rfl rfl (fun _ => rfl) rfl rfl rfl (by norm_num)
  refine ⟨hA.1.trans (by norm_num), hA.2 (by norm_num), hB.1.trans (by norm_num)⟩
